import Mathlib

/-!
# Verification of the tiktoken video validation and upload pipeline

Shallow embedding of `src/backend/api/validation.py`,
`src/backend/core/video.py`, `src/backend/core/firebase.py` and
`src/backend/core/config.py`.

Modelling conventions:
* Python `float` values (fps, duration and the policy limits) are modelled
  as exact rationals `ℚ`.  Every comparison appearing in the code
  (`<`, `>` against the literals 29.97, 30, 60) orders the decimal literals
  involved in the claims exactly as IEEE-754 doubles do, so the verdicts of
  the embedding coincide with the verdicts of the Python code on every
  input considered here.
* Python exceptions are values of `PyErr`; `try/except` blocks become
  `Except` case analysis.  `isinstance(e, ValueError)` is the
  `PyErr.valueError` constructor test.
* The side effects tracked by the claims (temp-file existence, number of
  calls to the durable store, upload attempts, backoff sleeps, the
  best-effort delete of a partial artifact) are threaded explicitly as
  result components.
-/

namespace Tiktoken

/-- A Python exception, as far as the pipeline distinguishes them:
`ValueError` (tested with `isinstance` in `get_specs` and
`validate_video`), `StorageError` (raised by `store_video`), and every
other exception class (`ZeroDivisionError`, `IndexError`, `ffmpeg.Error`,
`asyncio.TimeoutError` outside the store loop, ...). -/
inductive PyErr where
  | valueError (msg : String)
  | storageError (msg : String)
  | otherError (msg : String)
deriving DecidableEq

/-- `str(e)`: the message carried by the exception. -/
def PyErr.msg : PyErr → String
  | .valueError m => m
  | .storageError m => m
  | .otherError m => m

/-! ## validation.py: limits and error messages -/

/-- `LIMITS["MAX_SIZE"] = 6 * 1024 * 1024` (bytes). -/
def MAX_SIZE : Nat := 6 * 1024 * 1024

/-- `LIMITS["WIDTH"] = 720`. -/
def WIDTH : Int := 720

/-- `LIMITS["HEIGHT"] = 1280`. -/
def HEIGHT : Int := 1280

/-- `LIMITS["MIN_FPS"] = 29.97` (the decimal value, as an exact rational). -/
def MIN_FPS : ℚ := mkRat 2997 100

/-- `LIMITS["MAX_FPS"] = 30`. -/
def MAX_FPS : ℚ := 30

/-- `LIMITS["MAX_DURATION"] = 60` (seconds). -/
def MAX_DURATION : ℚ := 60

/-- `ValidationError.INVALID_FORMAT.value`. -/
def INVALID_FORMAT : String := "Invalid video format"

/-- `ValidationError.NO_VIDEO_STREAM.value`. -/
def NO_VIDEO_STREAM : String := "No video stream found"

/-- `ValidationError.FILE_TOO_LARGE.value`. -/
def FILE_TOO_LARGE : String := "File too large"

/-- `ValidationError.INVALID_RESOLUTION.value`. -/
def INVALID_RESOLUTION : String := "Invalid resolution"

/-- `ValidationError.INVALID_FPS.value`. -/
def INVALID_FPS : String := "Invalid frame rate"

/-- `ValidationError.VIDEO_TOO_LONG.value`. -/
def VIDEO_TOO_LONG : String := "Video too long"

/-- `ValidationError.INVALID_COLOR_SPACE.value`. -/
def INVALID_COLOR_SPACE : String := "Invalid color space"

/-- `ValidationError.INVALID_MIME.value`. -/
def INVALID_MIME : String := "Invalid file type"

/-! ## validation.py: data model -/

/-- `VideoSpecs` (pydantic model in validation.py). -/
structure VideoSpecs where
  width : Int
  height : Int
  fps : ℚ
  duration : ℚ
  colorSpace : String
  codec : Option String := none
  size : Option Int := none
deriving DecidableEq

/-- `ValidationResult` (pydantic model in validation.py). -/
structure ValidationResult where
  valid : Bool
  error : Option String := none
  specs : Option VideoSpecs := none
  suggestions : Option (List String) := none
deriving DecidableEq

/-! ## Raw ffprobe output

`ffmpeg.probe` returns a JSON document; the fields the code reads are
strings that `int()` / `float()` then parse.  A missing `color_space` or
`codec_name` key is modelled with `Option` (the code reads them with
`.get`, which never raises). -/

/-- One entry of `probe["streams"]`, restricted to the keys read by
`get_specs`. -/
structure RawStream where
  codec_type : String
  width : String
  height : String
  r_frame_rate : String
  color_space : Option String := none
  codec_name : Option String := none
deriving DecidableEq

/-- `probe["format"]`, restricted to the keys read by `get_specs`. -/
structure RawFormat where
  duration : String
  size : String
deriving DecidableEq

/-- The parsed ffprobe document. -/
structure ProbeData where
  streams : List RawStream
  format : RawFormat
deriving DecidableEq

/-! ## Python string primitives

The Python code calls `str.startswith`, `str.split`, `str.lower`,
`float()` and `int()`.  They are modelled here by structural recursion on
the character list of the string (so that every theorem below can be
checked by evaluation). -/

/-- Model of Python `s.startswith(pre)`. -/
def pyStartsWith (s pre : String) : Bool := pre.data.isPrefixOf s.data

/-- Split a character list on a separator character (every occurrence;
`splitCharList sep []` is `[[]]`, matching Python, where
`"".split(c) == [""]`). -/
def splitCharList (sep : Char) : List Char → List Char → List (List Char)
  | [], acc => [acc.reverse]
  | c :: cs, acc =>
    if c = sep then acc.reverse :: splitCharList sep cs []
    else splitCharList sep cs (c :: acc)

/-- Model of Python `s.split(sep)` for a one-character separator. -/
def pySplit (s : String) (sep : Char) : List String :=
  (splitCharList sep s.data []).map String.mk

/-- Model of Python `s.lower()` (ASCII case folding suffices for the
color-space tags involved). -/
def pyLower (s : String) : String := String.mk (s.data.map Char.toLower)

/-- Value of a non-empty all-digit character list, else `none`. -/
def digitsVal? (cs : List Char) : Option Nat :=
  if cs ≠ [] ∧ cs.all Char.isDigit then
    some (cs.foldl (fun n c => 10 * n + (c.toNat - 48)) 0)
  else none

/-! `float()` and `int()` on the metadata strings.  The model accepts
plain decimal literals (an optional leading minus sign, digits, and for
`float` an optional fractional part) and maps them to their exact
rational value; any other string raises `ValueError`, exactly as Python
does on the non-numeric strings considered in the claims. -/

/-- Model of Python `float(s)` restricted to plain decimal literals:
`[-] digits [. digits]`, returning the exact rational value
(`whole.frac` denotes `(whole * 10 ^ |frac| + frac) / 10 ^ |frac|`). -/
def pyFloat? (s : String) : Option ℚ :=
  let (sign, body) := match s.data with
    | c :: rest => if c = '-' then ((-1 : Int), rest) else ((1 : Int), s.data)
    | [] => ((1 : Int), s.data)
  match splitCharList '.' body [] with
  | [w] => (digitsVal? w).map fun n => mkRat (sign * n) 1
  | [w, f] =>
    match digitsVal? w, digitsVal? f with
    | some n, some m =>
      some (mkRat (sign * ((n : Int) * 10 ^ f.length + m)) (10 ^ f.length))
    | _, _ => none
  | _ => none

/-- `float(s)`, raising `ValueError` on a non-numeric string. -/
def pyFloatE (s : String) : Except PyErr ℚ :=
  match pyFloat? s with
  | some q => .ok q
  | none => .error (.valueError ("could not convert string to float: " ++ s))

/-- Model of Python `int(s)` restricted to plain integer literals. -/
def pyInt? (s : String) : Option Int :=
  match s.data with
  | c :: rest =>
    if c = '-' then (digitsVal? rest).map fun n => -(n : Int)
    else (digitsVal? s.data).map fun n => (n : Int)
  | [] => none

/-- `int(s)`, raising `ValueError` on a non-integer string. -/
def pyIntE (s : String) : Except PyErr Int :=
  match pyInt? s with
  | some n => .ok n
  | none => .error (.valueError ("invalid literal for int() with base 10: " ++ s))

/-- `xs[i]` on a Python list: `IndexError` (not a `ValueError`) when the
index is out of range. -/
def pyIdx (xs : List String) (i : Nat) : Except PyErr String :=
  match xs.get? i with
  | some x => .ok x
  | none => .error (.otherError "list index out of range")

/-- Exact division of two rationals, written on raw numerators and
denominators (equal to `a / b` for `b ≠ 0`; the zero-divisor case is
guarded by the `ZeroDivisionError` check at the call site). -/
def pyDiv (a b : ℚ) : ℚ :=
  if b.num < 0 then mkRat (-(a.num * (b.den : Int))) (a.den * b.num.natAbs)
  else mkRat (a.num * (b.den : Int)) (a.den * b.num.natAbs)

/-! ## Rendering of interpolated values

The f-strings in the error messages interpolate numbers; integers render
as in Python, rationals render as `num/den` (the exact value; Python
prints the nearest-double decimal instead — no claim depends on that
rendering). -/

/-- Decimal digits of `n` (most significant first), by fuel recursion. -/
def natDigits : Nat → Nat → List Char
  | 0, _ => []
  | fuel + 1, n =>
    if n < 10 then [Char.ofNat (48 + n)]
    else natDigits fuel (n / 10) ++ [Char.ofNat (48 + n % 10)]

/-- Decimal rendering of a natural number. -/
def natRepr (n : Nat) : String := String.mk (natDigits (n + 1) n)

/-- Decimal rendering of an integer. -/
def intRepr : Int → String
  | .ofNat n => natRepr n
  | .negSucc m => "-" ++ natRepr (m + 1)

/-- Rendering of a rational in an f-string (exact value). -/
def ratRepr (q : ℚ) : String :=
  if q.den = 1 then intRepr q.num
  else intRepr q.num ++ "/" ++ natRepr q.den

/-! ## validation.py: get_specs -/

/-- The tail of the `try` block of `get_specs` once the video stream has
been selected: parse `r_frame_rate` as `float(num) / float(den)` (Python
raises `IndexError` when the string has no `/` and `ZeroDivisionError` on
a zero denominator), then build the `VideoSpecs`, parsing `width`,
`height`, `format.duration` and `format.size` in the order the
constructor arguments are evaluated. -/
def specs_of_stream (video_stream : RawStream) (format : RawFormat) :
    Except PyErr VideoSpecs := do
  let fps_fraction := pySplit video_stream.r_frame_rate '/'
  let num ← pyIdx fps_fraction 0
  let den ← pyIdx fps_fraction 1
  let fnum ← pyFloatE num
  let fden ← pyFloatE den
  let fps ← if fden = 0
    then Except.error (PyErr.otherError "float division by zero")
    else Except.ok (pyDiv fnum fden)
  let w ← pyIntE video_stream.width
  let h ← pyIntE video_stream.height
  let dur ← pyFloatE format.duration
  let sz ← pyIntE format.size
  return { width := w, height := h, fps := fps, duration := dur,
           colorSpace := video_stream.color_space.getD "unknown",
           codec := video_stream.codec_name, size := some sz }

/-- The body of the `try` block of `get_specs` on a successfully probed
document: `next(...)` over the streams picks the first stream whose
`codec_type` is `"video"`; if there is none, raise
`ValueError(NO_VIDEO_STREAM)`. -/
def get_specs_body (probe : ProbeData) : Except PyErr VideoSpecs :=
  match probe.streams.find? (fun stream => stream.codec_type == "video") with
  | none => .error (.valueError NO_VIDEO_STREAM)
  | some video_stream => specs_of_stream video_stream probe.format

/-- `get_specs`: run `ffmpeg.probe` (whose own failure is an exception
entering the same `try`), then the body; the `except Exception` clause
re-raises a `ValueError` as-is and wraps every other exception in
`ValueError(INVALID_FORMAT)`. -/
def get_specs (probeResult : Except PyErr ProbeData) :
    Except PyErr VideoSpecs :=
  match (match probeResult with
         | .error e => .error e
         | .ok probe => get_specs_body probe : Except PyErr VideoSpecs) with
  | .ok specs => .ok specs
  | .error e =>
    match e with
    | .valueError m => .error (.valueError m)
    | _ => .error (.valueError INVALID_FORMAT)

/-! ## validation.py: get_error -/

/-- Suggestion list attached to an `INVALID_RESOLUTION` verdict (the
f-strings render the constant limits, giving these constant strings). -/
def resolutionSuggestions : List String :=
  ["Video must be exactly 720x1280",
   "Use a video editor to resize the video",
   "Most phones can record in this resolution natively"]

/-- Suggestion list attached to an `INVALID_FPS` verdict. -/
def fpsSuggestions : List String :=
  ["Frame rate must be between 29.97 and 30 FPS",
   "Try recording at 30 FPS",
   "Convert using a video editor"]

/-- Suggestion list attached to a `VIDEO_TOO_LONG` verdict. -/
def durationSuggestions : List String :=
  ["Video must be under 60 seconds",
   "Trim your video to be shorter",
   "Split long videos into multiple parts"]

/-- Suggestion list attached to an `INVALID_COLOR_SPACE` verdict. -/
def colorSpaceSuggestions : List String :=
  ["Video must use BT.709 color space",
   "Most modern phones record in this format",
   "Try converting with a video editor"]

/-- `get_error`: policy checks on the probed specs, in source order
(resolution, frame rate, duration, color space); `none` when every check
passes.  The value interpolated in each error message is rendered with
`toString` of the model value. -/
def get_error (specs : VideoSpecs) : Option ValidationResult :=
  if specs.width ≠ WIDTH ∨ specs.height ≠ HEIGHT then
    some { valid := false,
           error := some (INVALID_RESOLUTION ++ ": " ++
             intRepr specs.width ++ "x" ++ intRepr specs.height),
           specs := some specs,
           suggestions := some resolutionSuggestions }
  else if specs.fps < MIN_FPS ∨ specs.fps > MAX_FPS then
    some { valid := false,
           error := some (INVALID_FPS ++ ": " ++ ratRepr specs.fps),
           specs := some specs,
           suggestions := some fpsSuggestions }
  else if specs.duration > MAX_DURATION then
    some { valid := false,
           error := some (VIDEO_TOO_LONG ++ ": " ++ ratRepr specs.duration ++ "s"),
           specs := some specs,
           suggestions := some durationSuggestions }
  else if pyLower specs.colorSpace ≠ "bt709" then
    some { valid := false,
           error := some (INVALID_COLOR_SPACE ++ ": " ++ specs.colorSpace),
           specs := some specs,
           suggestions := some colorSpaceSuggestions }
  else
    none

/-! ## validation.py: validate_video -/

/-- What `validate_video` observes about the file on disk: the sniffed
MIME type (`magic.from_file`), the byte size (`os.stat().st_size`), and
the outcome of running `ffmpeg.probe` on it. -/
structure VFile where
  mime : String
  st_size : Nat
  probe : Except PyErr ProbeData

/-- Suggestion list attached to a `FILE_TOO_LARGE` verdict. -/
def sizeSuggestions : List String :=
  ["File must be under 6MB",
   "Try compressing the video",
   "Use a lower quality setting when recording"]

/-- Suggestion list attached by the top-level `except` clause of
`validate_video`. -/
def exceptionSuggestions : List String :=
  ["Ensure the video file is not corrupted",
   "Try re-recording or converting the video",
   "Check if your device supports the required format"]

/-- `validate_video`: MIME check, size check, probe, policy checks, in
source order; the top-level `except` clause turns an escaped exception
into an invalid result carrying its message (`e.args[0]` for a
`ValueError`, `str(e)` otherwise — both are `PyErr.msg` here). -/
def validate_video (f : VFile) : ValidationResult :=
  if ¬ pyStartsWith f.mime "video/" then
    { valid := false,
      error := some (INVALID_MIME ++ ": " ++ f.mime),
      suggestions := some ["Only video files are accepted"] }
  else if f.st_size > MAX_SIZE then
    { valid := false,
      error := some FILE_TOO_LARGE,
      suggestions := some sizeSuggestions }
  else
    match get_specs f.probe with
    | .error e =>
      { valid := false,
        error := some e.msg,
        suggestions := some exceptionSuggestions }
    | .ok specs =>
      match get_error specs with
      | some error_result => error_result
      | none => { valid := true, specs := some specs }

deriving instance DecidableEq for Except

/-! ## config.py: FirebaseSettings -/

/-- The settings used by `store_video` (`config.py`; `max_retry_attempts`
defaults to 3, `timeout_seconds` to 30, both overridable through the
environment). -/
structure FirebaseSettings where
  max_retry_attempts : Nat := 3
  timeout_seconds : Nat := 30
deriving DecidableEq

/-! ## firebase.py: store_video

One iteration of the retry loop either returns the public URL, times out
(`asyncio.TimeoutError`), or raises some other exception with a message;
the model takes the outcome of each attempt as an oracle
`Nat → AttemptOutcome`.  The observable effects tracked are the number of
attempts made, the number of fixed one-second backoff sleeps, and whether
the best-effort `blob.delete()` was attempted. -/

/-- Outcome of one iteration of the upload loop body. -/
inductive AttemptOutcome where
  | success (url : String)
  | timeout
  | failure (msg : String)
deriving DecidableEq

/-- Observable effects of a `store_video` call. -/
structure StoreTrace where
  attempts_made : Nat := 0
  sleeps : Nat := 0
  delete_attempted : Bool := false
deriving DecidableEq

/-- The `for attempt in range(max_retry_attempts)` loop of `store_video`,
structurally recursive on the number of remaining iterations (`fuel`,
which is `N - i` at every call).  `i = N - 1` is the source's
`attempt == self.settings.max_retry_attempts - 1` final-attempt test.  On
a timeout of the final attempt the loop raises
`StorageError("Upload timeout after retries")` without touching the blob;
on any other exception of the final attempt it attempts `blob.delete()`
(best-effort, errors swallowed) and raises
`StorageError("Failed to store video: ...")`.  Exhausting the loop
without entering the body (only possible when `max_retry_attempts = 0`)
falls off the end of the Python function and returns `None`. -/
def store_video_go (outcomes : Nat → AttemptOutcome) (N : Nat) :
    Nat → Nat → StoreTrace → Except PyErr (Option String) × StoreTrace
  | 0, _, tr => (.ok none, tr)
  | fuel + 1, i, tr =>
    let tr1 : StoreTrace := { tr with attempts_made := tr.attempts_made + 1 }
    match outcomes i with
    | .success url => (.ok (some url), tr1)
    | .timeout =>
      if i = N - 1 then
        (.error (.storageError "Upload timeout after retries"), tr1)
      else
        store_video_go outcomes N fuel (i + 1) { tr1 with sleeps := tr1.sleeps + 1 }
    | .failure m =>
      if i = N - 1 then
        (.error (.storageError ("Failed to store video: " ++ m)),
         { tr1 with delete_attempted := true })
      else
        store_video_go outcomes N fuel (i + 1) { tr1 with sleeps := tr1.sleeps + 1 }

/-- `FirebaseService.store_video`: run the retry loop from attempt 0 with
a fresh trace. -/
def store_video (settings : FirebaseSettings) (outcomes : Nat → AttemptOutcome) :
    Except PyErr (Option String) × StoreTrace :=
  store_video_go outcomes settings.max_retry_attempts settings.max_retry_attempts 0 {}

/-! ## video.py: ProcessingResult and process_and_store -/

/-- `ProcessingResult` (pydantic model in video.py). -/
structure ProcessingResult where
  success : Bool
  url : Option String := none
  error : Option String := none
  specs : Option VideoSpecs := none
deriving DecidableEq

/-- What `process_and_store` observes about the incoming `UploadFile`:
the filename, the declared content type, and the outcome of
`await file.read()` — either the content (described by the `VFile` view
that `validate_video` sees once the bytes are on disk) or an exception
raised while draining the stream. -/
structure UploadFile where
  filename : String
  content_type : String
  read_result : Except PyErr VFile

/-- Everything observable at the end of a `process_and_store` call: the
returned result, whether the temp file created by
`tempfile.NamedTemporaryFile(delete=False)` still exists, how many times
`firebase.store_video` was called, and the trace of that call when it
happened. -/
structure PipeOutcome where
  result : ProcessingResult
  temp_exists : Bool
  store_calls : Nat
  store_trace : Option StoreTrace
deriving DecidableEq

/-- `VideoService.process_and_store`.

The temp file is created by `NamedTemporaryFile(delete=False)` as soon as
the `with` statement opens, but `temp_path` is assigned only after
`file.read()` and `temp_file.write(content)` have succeeded.  If the read
raises, the `except` clause builds the failure result while `temp_path`
is still `None`, so the `finally` clause does not unlink and the temp
file survives the call.  On every other path `temp_path` is set and the
`finally` clause unlinks it, swallowing any unlink error
(`unlink_ok = false` models `os.unlink` itself failing: the file then
still exists, but the result is unchanged). -/
def process_and_store (file : UploadFile) (_user_id : Option String)
    (settings : FirebaseSettings) (outcomes : Nat → AttemptOutcome)
    (unlink_ok : Bool) : PipeOutcome :=
  match file.read_result with
  | .error e =>
    { result := { success := false, error := some ("Processing failed: " ++ e.msg) },
      temp_exists := true, store_calls := 0, store_trace := none }
  | .ok content =>
    let validation := validate_video content
    if ¬ validation.valid then
      { result := { success := false, error := validation.error,
                    specs := validation.specs },
        temp_exists := !unlink_ok, store_calls := 0, store_trace := none }
    else
      match store_video settings outcomes with
      | (.ok url, tr) =>
        { result := { success := true, url := url, specs := validation.specs },
          temp_exists := !unlink_ok, store_calls := 1, store_trace := some tr }
      | (.error e, tr) =>
        { result := { success := false, error := some ("Processing failed: " ++ e.msg) },
          temp_exists := !unlink_ok, store_calls := 1, store_trace := some tr }

/-! ## Concrete fixtures used by the witnesses and counterexamples -/

/-- The synthetic happy-path probe report from the spec:
`{width:720, height:1280, r_frame_rate:"30000/1001", duration:"30.0",
size:"1000000", color_space:"bt709"}`. -/
def happyProbe : ProbeData :=
  { streams := [{ codec_type := "video", width := "720", height := "1280",
                  r_frame_rate := "30000/1001", color_space := some "bt709",
                  codec_name := some "h264" }],
    format := { duration := "30.0", size := "1000000" } }

/-- The happy-path file: sniffed MIME `video/mp4`, 1 MB on disk,
probing yields `happyProbe`. -/
def happyFile : VFile :=
  { mime := "video/mp4", st_size := 1000000, probe := .ok happyProbe }

/-- The specs `get_specs` extracts from `happyProbe`. -/
def happySpecs : VideoSpecs :=
  { width := 720, height := 1280, fps := mkRat 30000 1001, duration := 30,
    colorSpace := "bt709", codec := some "h264", size := some 1000000 }

/-- An upload whose bytes are read successfully and look like
`happyFile` once written to the temp file. -/
def happyUpload : UploadFile :=
  { filename := "happy.mp4", content_type := "video/mp4",
    read_result := .ok happyFile }

/-- A file whose sniffed MIME is not a video type. -/
def pngFile : VFile :=
  { mime := "image/png", st_size := 5,
    probe := .error (.otherError "never probed") }

/-- An upload carrying `pngFile`. -/
def pngUpload : UploadFile :=
  { filename := "cat.mp4", content_type := "video/mp4",
    read_result := .ok pngFile }

/-- An upload whose `file.read()` raises before the bytes reach the temp
file. -/
def abortedUpload : UploadFile :=
  { filename := "clip.mp4", content_type := "video/mp4",
    read_result := .error (.otherError "Connection reset by peer") }

/-- A probe report whose only stream is audio. -/
def audioOnlyProbe : ProbeData :=
  { streams := [{ codec_type := "audio", width := "0", height := "0",
                  r_frame_rate := "0/0" }],
    format := { duration := "30.0", size := "1000" } }

/-- A probe report whose video stream has an unparseable frame-rate
numerator (`float("abc")` raises `ValueError`). -/
def badFpsProbe : ProbeData :=
  { streams := [{ codec_type := "video", width := "720", height := "1280",
                  r_frame_rate := "abc/1" }],
    format := { duration := "30.0", size := "1000000" } }

/-- Specs that pass every check except the frame rate, parameterised by
the frame rate under test. -/
def fpsSpecsAt (q : ℚ) : VideoSpecs :=
  { width := 720, height := 1280, fps := q, duration := 30,
    colorSpace := "bt709" }

/-- Specs with a 1920x1080 resolution (everything else in policy). -/
def wrongResSpecs : VideoSpecs :=
  { width := 1920, height := 1080, fps := 30, duration := 30,
    colorSpace := "bt709" }

/-- A public URL as returned by `blob.public_url`. -/
def happyUrl : String :=
  "https://storage.googleapis.com/tiktoken-videos/videos/happy.mp4"

end Tiktoken

namespace Tiktoken

/-! ## Shared structural lemmas -/

/-- Every result produced by `get_error` is an invalid verdict carrying
the probed specs, an error message, and a 3-item suggestion list. -/
theorem get_error_some_spec (specs : VideoSpecs) (r : ValidationResult)
    (h : get_error specs = some r) :
    r.valid = false ∧ r.specs = some specs ∧ (∃ m, r.error = some m)
      ∧ (∃ l, r.suggestions = some l ∧ l.length = 3) := by
  unfold get_error at h
  repeat' split at h
  all_goals simp_all
  all_goals subst h
  all_goals simp [resolutionSuggestions, fpsSuggestions, durationSuggestions,
    colorSpaceSuggestions]

/-- Shape of every `validate_video` result: `valid` holds exactly when
`error` is absent, and a valid result always carries specs. -/
theorem validate_video_shape (f : VFile) :
    ((validate_video f).valid = true ↔ (validate_video f).error = none)
    ∧ ((validate_video f).valid = true → (validate_video f).specs ≠ none) := by
  unfold validate_video
  split
  · simp
  · split
    · simp
    · cases hs : get_specs f.probe with
      | error e => simp
      | ok specs =>
        cases hg : get_error specs with
        | none => simp [hg]
        | some r =>
          obtain ⟨hv, hsp, ⟨m, hm⟩, -⟩ := get_error_some_spec specs r hg
          simp [hg, hv, hm]

/-! ## Unfolding equations for the store retry loop -/

/-- Loop step: a successful attempt returns the URL at once. -/
theorem store_go_eq_success (outcomes : Nat → AttemptOutcome) (N f i : Nat)
    (tr : StoreTrace) (url : String) (ho : outcomes i = .success url) :
    store_video_go outcomes N (f + 1) i tr
      = (.ok (some url), { tr with attempts_made := tr.attempts_made + 1 }) := by
  unfold store_video_go
  rw [ho]

/-- Loop step: a timeout on the final attempt raises `StorageError`
without attempting the blob delete. -/
theorem store_go_eq_timeout_last (outcomes : Nat → AttemptOutcome) (N f i : Nat)
    (tr : StoreTrace) (ho : outcomes i = .timeout) (hi : i = N - 1) :
    store_video_go outcomes N (f + 1) i tr
      = (.error (.storageError "Upload timeout after retries"),
         { tr with attempts_made := tr.attempts_made + 1 }) := by
  unfold store_video_go
  rw [ho]
  dsimp only
  rw [if_pos hi]

/-- Loop step: a timeout on a non-final attempt sleeps once and
retries. -/
theorem store_go_eq_timeout_retry (outcomes : Nat → AttemptOutcome) (N f i : Nat)
    (tr : StoreTrace) (ho : outcomes i = .timeout) (hi : ¬ i = N - 1) :
    store_video_go outcomes N (f + 1) i tr
      = store_video_go outcomes N f (i + 1)
          { attempts_made := tr.attempts_made + 1, sleeps := tr.sleeps + 1,
            delete_attempted := tr.delete_attempted } := by
  simp only [store_video_go]
  rw [ho]
  rw [if_neg hi]

/-- Loop step: a non-timeout exception on the final attempt attempts the
blob delete and raises `StorageError`. -/
theorem store_go_eq_failure_last (outcomes : Nat → AttemptOutcome) (N f i : Nat)
    (tr : StoreTrace) (m : String) (ho : outcomes i = .failure m) (hi : i = N - 1) :
    store_video_go outcomes N (f + 1) i tr
      = (.error (.storageError ("Failed to store video: " ++ m)),
         { attempts_made := tr.attempts_made + 1, sleeps := tr.sleeps,
           delete_attempted := true }) := by
  unfold store_video_go
  rw [ho]
  dsimp only
  rw [if_pos hi]

/-- Loop step: a non-timeout exception on a non-final attempt sleeps
once and retries. -/
theorem store_go_eq_failure_retry (outcomes : Nat → AttemptOutcome) (N f i : Nat)
    (tr : StoreTrace) (m : String) (ho : outcomes i = .failure m) (hi : ¬ i = N - 1) :
    store_video_go outcomes N (f + 1) i tr
      = store_video_go outcomes N f (i + 1)
          { attempts_made := tr.attempts_made + 1, sleeps := tr.sleeps + 1,
            delete_attempted := tr.delete_attempted } := by
  simp only [store_video_go]
  rw [ho]
  show (if i = N - 1 then
          ((.error (.storageError ("Failed to store video: " ++ m))
              : Except PyErr (Option String)),
           { attempts_made := tr.attempts_made + 1, sleeps := tr.sleeps,
             delete_attempted := true })
        else store_video_go outcomes N f (i + 1)
          { attempts_made := tr.attempts_made + 1, sleeps := tr.sleeps + 1,
            delete_attempted := tr.delete_attempted })
      = store_video_go outcomes N f (i + 1)
          { attempts_made := tr.attempts_made + 1, sleeps := tr.sleeps + 1,
            delete_attempted := tr.delete_attempted }
  rw [if_neg hi]

/-- The loop makes at most `fuel` further attempts. -/
theorem store_go_attempts_le (outcomes : Nat → AttemptOutcome) (N : Nat) :
    ∀ fuel i tr,
      (store_video_go outcomes N fuel i tr).2.attempts_made
        ≤ tr.attempts_made + fuel := by
  intro fuel
  induction fuel with
  | zero => intro i tr; simp [store_video_go]
  | succ f ih =>
    intro i tr
    cases ho : outcomes i with
    | success url =>
      rw [store_go_eq_success outcomes N f i tr url ho]; dsimp only; omega
    | timeout =>
      by_cases hi : i = N - 1
      · rw [store_go_eq_timeout_last outcomes N f i tr ho hi]; dsimp only; omega
      · rw [store_go_eq_timeout_retry outcomes N f i tr ho hi]
        exact le_trans (ih (i + 1) _) (by dsimp only; omega)
    | failure m =>
      by_cases hi : i = N - 1
      · rw [store_go_eq_failure_last outcomes N f i tr m ho hi]; dsimp only; omega
      · rw [store_go_eq_failure_retry outcomes N f i tr m ho hi]
        exact le_trans (ih (i + 1) _) (by dsimp only; omega)

/-- Entered with at least one attempt left, the loop never falls off the
end, i.e. never returns Python `None`. -/
theorem store_go_ne_ok_none (outcomes : Nat → AttemptOutcome) (N : Nat) :
    ∀ fuel i tr, fuel + i = N → 0 < fuel →
      (store_video_go outcomes N fuel i tr).1 ≠ .ok none := by
  intro fuel
  induction fuel with
  | zero => intro i tr hN hpos; omega
  | succ f ih =>
    intro i tr hN hpos
    cases ho : outcomes i with
    | success url => rw [store_go_eq_success outcomes N f i tr url ho]; simp
    | timeout =>
      by_cases hi : i = N - 1
      · rw [store_go_eq_timeout_last outcomes N f i tr ho hi]; simp
      · rw [store_go_eq_timeout_retry outcomes N f i tr ho hi]
        exact ih (i + 1) _ (by omega) (by omega)
    | failure m =>
      by_cases hi : i = N - 1
      · rw [store_go_eq_failure_last outcomes N f i tr m ho hi]; simp
      · rw [store_go_eq_failure_retry outcomes N f i tr m ho hi]
        exact ih (i + 1) _ (by omega) (by omega)

/-- When no attempt succeeds, the loop uses all its attempts, sleeps
between consecutive attempts, raises `StorageError`, and attempts the
blob delete exactly when the final outcome is a non-timeout failure. -/
theorem store_go_allfail (outcomes : Nat → AttemptOutcome) (N : Nat)
    (hfail : ∀ j m, outcomes j ≠ .success m) :
    ∀ fuel i tr, fuel + i = N → 0 < fuel → tr.delete_attempted = false →
      ∃ m, (store_video_go outcomes N fuel i tr).1 = .error (.storageError m)
      ∧ ((store_video_go outcomes N fuel i tr).2.delete_attempted = true
          ↔ ∃ msg, outcomes (N - 1) = .failure msg)
      ∧ (store_video_go outcomes N fuel i tr).2.attempts_made
          = tr.attempts_made + fuel
      ∧ (store_video_go outcomes N fuel i tr).2.sleeps = tr.sleeps + (fuel - 1) := by
  intro fuel
  induction fuel with
  | zero => intro i tr hN hpos; omega
  | succ f ih =>
    intro i tr hN hpos hdel
    cases ho : outcomes i with
    | success url => exact absurd ho (hfail i url)
    | timeout =>
      by_cases hi : i = N - 1
      · rw [store_go_eq_timeout_last outcomes N f i tr ho hi]
        have hf0 : f = 0 := by omega
        refine ⟨_, rfl, ?_, by dsimp only; omega, by dsimp only; omega⟩
        dsimp only
        rw [hdel]
        constructor
        · intro hc; cases hc
        · rintro ⟨msg, hmsg⟩
          rw [← hi, ho] at hmsg
          cases hmsg
      · rw [store_go_eq_timeout_retry outcomes N f i tr ho hi]
        obtain ⟨m, h1, h2, h3, h4⟩ := ih (i + 1)
          { attempts_made := tr.attempts_made + 1, sleeps := tr.sleeps + 1,
            delete_attempted := tr.delete_attempted }
          (by omega) (by omega) (by simpa using hdel)
        exact ⟨m, h1, h2, by rw [h3]; dsimp only; omega,
          by rw [h4]; dsimp only; omega⟩
    | failure msg0 =>
      by_cases hi : i = N - 1
      · rw [store_go_eq_failure_last outcomes N f i tr msg0 ho hi]
        have hf0 : f = 0 := by omega
        refine ⟨_, rfl, ?_, by dsimp only; omega, by dsimp only; omega⟩
        dsimp only
        constructor
        · intro hc
          exact ⟨msg0, by rw [← hi]; exact ho⟩
        · intro hc; rfl
      · rw [store_go_eq_failure_retry outcomes N f i tr msg0 ho hi]
        obtain ⟨m, h1, h2, h3, h4⟩ := ih (i + 1)
          { attempts_made := tr.attempts_made + 1, sleeps := tr.sleeps + 1,
            delete_attempted := tr.delete_attempted }
          (by omega) (by omega) (by simpa using hdel)
        exact ⟨m, h1, h2, by rw [h3]; dsimp only; omega,
          by rw [h4]; dsimp only; omega⟩

/-- With at least one configured attempt, `store_video` never returns
Python `None` in place of a URL. -/
theorem store_video_ok_some (settings : FirebaseSettings)
    (outcomes : Nat → AttemptOutcome) (h : 0 < settings.max_retry_attempts) :
    (store_video settings outcomes).1 ≠ .ok none :=
  store_go_ne_ok_none outcomes settings.max_retry_attempts
    settings.max_retry_attempts 0 {} (by omega) h

end Tiktoken

namespace Tiktoken

/-! ## The claims -/

/-- Claim C1: for every upload whose validation verdict is invalid,
`process_and_store` returns
`ProcessingResult(success=false, error=verdict.error, specs=verdict.specs)`
with no URL, and `FirebaseService.store_video` is invoked zero times. -/
theorem invalid_upload_never_stored
    (file : UploadFile) (content : VFile) (user_id : Option String)
    (settings : FirebaseSettings) (outcomes : Nat → AttemptOutcome)
    (unlink_ok : Bool)
    (hread : file.read_result = .ok content)
    (hinvalid : (validate_video content).valid = false) :
    (process_and_store file user_id settings outcomes unlink_ok).result =
      { success := false, url := none,
        error := (validate_video content).error,
        specs := (validate_video content).specs }
    ∧ (process_and_store file user_id settings outcomes unlink_ok).store_calls = 0 := by
  unfold process_and_store
  rw [hread]
  dsimp only
  rw [if_pos (by simp [hinvalid])]
  exact ⟨rfl, rfl⟩

/-- Witness for C1: a PNG upload fails validation, the store is never
called. -/
theorem invalid_upload_never_stored_witness :
    (process_and_store pngUpload none {} (fun _ => .success happyUrl) true).result =
      { success := false, url := none,
        error := (validate_video pngFile).error,
        specs := (validate_video pngFile).specs }
    ∧ (process_and_store pngUpload none {} (fun _ => .success happyUrl) true).store_calls
        = 0 :=
  invalid_upload_never_stored pngUpload pngFile none {} (fun _ => .success happyUrl)
    true rfl (by decide)

/-- Claim C2: the spec's happy-path probe report with MIME `video/mp4`
validates to a valid verdict whose fps is exactly 30000/1001 (within
0.001 of 29.97), and the pipeline then returns `success=true` with a
non-null URL. -/
theorem happy_path_valid_and_stored :
    validate_video happyFile
      = { valid := true, error := none, specs := some happySpecs, suggestions := none }
    ∧ happySpecs.fps = 30000 / 1001
    ∧ |happySpecs.fps - 2997 / 100| < 1 / 1000
    ∧ (process_and_store happyUpload (some "user-1") {}
         (fun _ => .success happyUrl) true).result
        = { success := true, url := some happyUrl, error := none,
            specs := some happySpecs }
    ∧ (some happyUrl : Option String) ≠ none := by
  have hfps : happySpecs.fps = 30000 / 1001 := by
    show (mkRat 30000 1001 : ℚ) = 30000 / 1001
    rw [Rat.mkRat_eq_div]
    norm_num
  refine ⟨by decide, hfps, ?_, by decide, by simp⟩
  rw [hfps]
  rw [abs_sub_lt_iff]
  norm_num

/-- Claim C3: `validate_video` runs MIME sniff, size check, probe, then
the policy checks resolution, frame rate, duration, color space, in that
order, and the first failing check determines the verdict — in
particular the verdict of a failed MIME check does not depend on the
size or the probe, and the verdict of a failed size check does not
depend on the probe (the probe is never consulted). -/
theorem validation_check_order :
    (∀ mime s₁ s₂ p₁ p₂, pyStartsWith mime "video/" = false →
       validate_video ⟨mime, s₁, p₁⟩ = validate_video ⟨mime, s₂, p₂⟩
       ∧ (validate_video ⟨mime, s₁, p₁⟩).error = some (INVALID_MIME ++ ": " ++ mime))
    ∧ (∀ mime s p₁ p₂, pyStartsWith mime "video/" = true → s > MAX_SIZE →
       validate_video ⟨mime, s, p₁⟩ = validate_video ⟨mime, s, p₂⟩
       ∧ (validate_video ⟨mime, s, p₁⟩).error = some FILE_TOO_LARGE)
    ∧ MAX_SIZE = 6291456
    ∧ (∀ specs : VideoSpecs, (specs.width ≠ WIDTH ∨ specs.height ≠ HEIGHT) →
       ∃ r, get_error specs = some r
         ∧ r.error = some (INVALID_RESOLUTION ++ ": " ++ intRepr specs.width
             ++ "x" ++ intRepr specs.height))
    ∧ (∀ specs : VideoSpecs, specs.width = WIDTH → specs.height = HEIGHT →
       (specs.fps < MIN_FPS ∨ specs.fps > MAX_FPS) →
       ∃ r, get_error specs = some r
         ∧ r.error = some (INVALID_FPS ++ ": " ++ ratRepr specs.fps))
    ∧ (∀ specs : VideoSpecs, specs.width = WIDTH → specs.height = HEIGHT →
       MIN_FPS ≤ specs.fps → specs.fps ≤ MAX_FPS → specs.duration > MAX_DURATION →
       ∃ r, get_error specs = some r
         ∧ r.error = some (VIDEO_TOO_LONG ++ ": " ++ ratRepr specs.duration ++ "s"))
    ∧ (∀ specs : VideoSpecs, specs.width = WIDTH → specs.height = HEIGHT →
       MIN_FPS ≤ specs.fps → specs.fps ≤ MAX_FPS → specs.duration ≤ MAX_DURATION →
       pyLower specs.colorSpace ≠ "bt709" →
       ∃ r, get_error specs = some r
         ∧ r.error = some (INVALID_COLOR_SPACE ++ ": " ++ specs.colorSpace))
    ∧ (∀ specs : VideoSpecs, specs.width = WIDTH → specs.height = HEIGHT →
       MIN_FPS ≤ specs.fps → specs.fps ≤ MAX_FPS → specs.duration ≤ MAX_DURATION →
       pyLower specs.colorSpace = "bt709" → get_error specs = none) := by
  refine ⟨?_, ?_, by decide, ?_, ?_, ?_, ?_, ?_⟩
  · intro mime s₁ s₂ p₁ p₂ h
    constructor <;> simp [validate_video, h]
  · intro mime s p₁ p₂ h hsize
    constructor <;> simp [validate_video, h, hsize]
  · intro specs hwh
    unfold get_error
    rw [if_pos hwh]
    exact ⟨_, rfl, rfl⟩
  · intro specs hw hh hfps
    unfold get_error
    rw [if_neg (by simp [hw, hh]), if_pos hfps]
    exact ⟨_, rfl, rfl⟩
  · intro specs hw hh h1 h2 hdur
    unfold get_error
    rw [if_neg (by simp [hw, hh]), if_neg (by push_neg; exact ⟨h1, h2⟩), if_pos hdur]
    exact ⟨_, rfl, rfl⟩
  · intro specs hw hh h1 h2 hdur hcs
    unfold get_error
    rw [if_neg (by simp [hw, hh]), if_neg (by push_neg; exact ⟨h1, h2⟩),
      if_neg (not_lt.mpr hdur), if_pos hcs]
    exact ⟨_, rfl, rfl⟩
  · intro specs hw hh h1 h2 hdur hcs
    unfold get_error
    rw [if_neg (by simp [hw, hh]), if_neg (by push_neg; exact ⟨h1, h2⟩),
      if_neg (not_lt.mpr hdur), if_neg (by simp [hcs])]

/-- Witness for C3: the spec's 7 MiB scenario — the verdict is
`FileTooLarge` and does not change when the probe outcome is replaced by
a crash, i.e. the probe is never consulted. -/
theorem validation_check_order_witness :
    validate_video ⟨"video/mp4", 7 * 1024 * 1024, .ok happyProbe⟩
      = validate_video ⟨"video/mp4", 7 * 1024 * 1024, .error (.otherError "probe crashed")⟩
    ∧ (validate_video ⟨"video/mp4", 7 * 1024 * 1024, .ok happyProbe⟩).error
      = some FILE_TOO_LARGE :=
  validation_check_order.2.1 "video/mp4" (7 * 1024 * 1024) (.ok happyProbe)
    (.error (.otherError "probe crashed")) (by decide) (by decide)

/-- Counterexample to C4 as stated: with `max_retry_attempts = 0`
(`max_retry_attempts` is configurable), `store_video` falls off its loop
and returns Python `None`, so a valid upload yields `success = true`
with `url = none` and `error = none`, contradicting
`success = true → url ≠ null`. -/
theorem zero_retries_success_without_url :
    (process_and_store happyUpload none { max_retry_attempts := 0 }
       (fun _ => .success happyUrl) true).result.success = true
    ∧ (process_and_store happyUpload none { max_retry_attempts := 0 }
       (fun _ => .success happyUrl) true).result.url = none
    ∧ (process_and_store happyUpload none { max_retry_attempts := 0 }
       (fun _ => .success happyUrl) true).result.error = none := by
  decide

/-- Claim C4, amended: provided `max_retry_attempts ≥ 1` (the default is
3), every ProcessingResult returned by `process_and_store` satisfies
`success = true ↔ (url ≠ null ∧ error = null)`. -/
theorem processing_success_invariant (file : UploadFile) (user : Option String)
    (settings : FirebaseSettings) (outcomes : Nat → AttemptOutcome)
    (unlink_ok : Bool) (h : 0 < settings.max_retry_attempts) :
    (process_and_store file user settings outcomes unlink_ok).result.success = true
      ↔ ((process_and_store file user settings outcomes unlink_ok).result.url ≠ none
          ∧ (process_and_store file user settings outcomes unlink_ok).result.error
              = none) := by
  unfold process_and_store
  cases file.read_result with
  | error e => simp
  | ok content =>
    dsimp only
    by_cases hv : (validate_video content).valid = true
    · rw [if_neg (by simp [hv])]
      cases hs : store_video settings outcomes with
      | mk res tr =>
        cases res with
        | ok u =>
          have hne := store_video_ok_some settings outcomes h
          rw [hs] at hne
          cases u with
          | none => exact absurd rfl hne
          | some url => simp
        | error e => simp
    · rw [if_pos (by simp [hv])]
      dsimp only
      constructor
      · intro hc; simp at hc
      · rintro ⟨-, herr⟩
        exact absurd ((validate_video_shape content).1.mpr herr) hv

/-- Witness for C4 (amended): the happy path under the default settings
satisfies the invariant. -/
theorem processing_success_invariant_witness :
    (process_and_store happyUpload none {} (fun _ => .success happyUrl)
        true).result.success = true
      ↔ ((process_and_store happyUpload none {} (fun _ => .success happyUrl)
            true).result.url ≠ none
          ∧ (process_and_store happyUpload none {} (fun _ => .success happyUrl)
              true).result.error = none) :=
  processing_success_invariant happyUpload none {} (fun _ => .success happyUrl)
    true (by decide)

/-- Claim C5 (code bug): when `file.read()` raises, the temp file
created by `NamedTemporaryFile(delete=False)` still exists after
`process_and_store` returns, because `temp_path` was never assigned and
the `finally` clause skips the unlink; the call still returns the
converted failure result and never touches the store. -/
theorem temp_file_leak_on_read_failure :
    (process_and_store abortedUpload none {} (fun _ => .success happyUrl)
       true).temp_exists = true
    ∧ (process_and_store abortedUpload none {} (fun _ => .success happyUrl)
       true).result
      = { success := false, url := none,
          error := some "Processing failed: Connection reset by peer", specs := none }
    ∧ (process_and_store abortedUpload none {} (fun _ => .success happyUrl)
       true).store_calls = 0 := by
  decide

/-- Claim C6: the frame-rate check accepts fps exactly when
`29.97 ≤ fps ≤ 30`, both bounds inclusive; 29.969 and 30.001 give
`InvalidFps`, 29.97 and 30 pass when every other spec is in policy. -/
theorem fps_boundary_inclusive :
    (∀ q : ℚ, get_error (fpsSpecsAt q) = none ↔ (MIN_FPS ≤ q ∧ q ≤ MAX_FPS))
    ∧ MIN_FPS = 2997 / 100 ∧ MAX_FPS = 30
    ∧ (∃ r, get_error (fpsSpecsAt (mkRat 29969 1000)) = some r
        ∧ r.error = some (INVALID_FPS ++ ": " ++ ratRepr (mkRat 29969 1000)))
    ∧ (∃ r, get_error (fpsSpecsAt (mkRat 30001 1000)) = some r
        ∧ r.error = some (INVALID_FPS ++ ": " ++ ratRepr (mkRat 30001 1000)))
    ∧ get_error (fpsSpecsAt MIN_FPS) = none
    ∧ get_error (fpsSpecsAt MAX_FPS) = none := by
  refine ⟨?_, ?_, rfl,
    ⟨(get_error (fpsSpecsAt (mkRat 29969 1000))).getD ⟨false, none, none, none⟩,
      by decide, by decide⟩,
    ⟨(get_error (fpsSpecsAt (mkRat 30001 1000))).getD ⟨false, none, none, none⟩,
      by decide, by decide⟩,
    by decide, by decide⟩
  · intro q
    unfold get_error fpsSpecsAt
    dsimp only
    rw [if_neg (by decide)]
    by_cases h : q < MIN_FPS ∨ q > MAX_FPS
    · rw [if_pos h]
      constructor
      · intro hc; simp at hc
      · rintro ⟨h1, h2⟩
        rcases h with h | h
        · exact absurd h1 (not_le.mpr h)
        · exact absurd h2 (not_le.mpr h)
    · rw [if_neg h, if_neg (by decide), if_neg (by decide)]
      push_neg at h
      simp [h]
  · show (mkRat 2997 100 : ℚ) = 2997 / 100
    rw [Rat.mkRat_eq_div]
    norm_num

/-- Witness for C6: fps exactly 29.97 passes the checks. -/
theorem fps_boundary_inclusive_witness :
    get_error (fpsSpecsAt (mkRat 2997 100)) = none :=
  (fps_boundary_inclusive.1 (mkRat 2997 100)).mpr (by decide)

/-- Counterexample to C7 as stated: a metadata parse error that raises
`ValueError` — here `float("abc")` while parsing `r_frame_rate` — is
re-raised by `get_specs` with its original message, which is neither
`NoVideoStream` nor `InvalidFormat`. -/
theorem probe_value_error_surfaced :
    get_specs (.ok badFpsProbe)
      = .error (.valueError "could not convert string to float: abc")
    ∧ "could not convert string to float: abc" ≠ NO_VIDEO_STREAM
    ∧ "could not convert string to float: abc" ≠ INVALID_FORMAT := by
  decide

/-- Claim C7, amended: `get_specs` selects the first stream whose
`codec_type` is `"video"` (its result depends on the probe document only
through that selection and the format section) and fails with
`NoVideoStream` when no such stream exists; every surfaced failure is a
`ValueError`, and every non-`ValueError` failure of the body or of the
probe itself is normalized to `InvalidFormat` — but a `ValueError`
raised while parsing metadata propagates with its original message. -/
theorem probe_error_modes :
    (∀ pd : ProbeData, (∀ st ∈ pd.streams, st.codec_type ≠ "video") →
       get_specs (.ok pd) = .error (.valueError NO_VIDEO_STREAM))
    ∧ (∀ pd₁ pd₂ : ProbeData,
        pd₁.streams.find? (fun s => s.codec_type == "video")
          = pd₂.streams.find? (fun s => s.codec_type == "video") →
        pd₁.format = pd₂.format →
        get_specs (.ok pd₁) = get_specs (.ok pd₂))
    ∧ (∀ input e, get_specs input = .error e → ∃ m, e = PyErr.valueError m)
    ∧ (∀ pd e, get_specs_body pd = .error e → (∀ m, e ≠ PyErr.valueError m) →
        get_specs (.ok pd) = .error (.valueError INVALID_FORMAT))
    ∧ (∀ e, (∀ m, e ≠ PyErr.valueError m) →
        get_specs (.error e) = .error (.valueError INVALID_FORMAT)) := by
  refine ⟨?_, ?_, ?_, ?_, ?_⟩
  · intro pd h
    have hf : pd.streams.find? (fun s => s.codec_type == "video") = none := by
      rw [List.find?_eq_none]
      intro x hx
      simpa using h x hx
    unfold get_specs get_specs_body
    dsimp only
    rw [hf]
  · intro pd₁ pd₂ hfind hfmt
    unfold get_specs get_specs_body
    dsimp only
    rw [hfind, hfmt]
  · intro input e h
    unfold get_specs at h
    cases input with
    | error e0 =>
      dsimp only at h
      cases e0 with
      | valueError m => simp at h; exact ⟨m, h.symm⟩
      | storageError m => simp at h; exact ⟨INVALID_FORMAT, h.symm⟩
      | otherError m => simp at h; exact ⟨INVALID_FORMAT, h.symm⟩
    | ok pd =>
      dsimp only at h
      cases hb : get_specs_body pd with
      | ok specs => rw [hb] at h; simp at h
      | error e' =>
        rw [hb] at h
        cases e' with
        | valueError m => simp at h; exact ⟨m, h.symm⟩
        | storageError m => simp at h; exact ⟨INVALID_FORMAT, h.symm⟩
        | otherError m => simp at h; exact ⟨INVALID_FORMAT, h.symm⟩
  · intro pd e h hnv
    unfold get_specs
    dsimp only
    rw [h]
    cases e with
    | valueError m => exact absurd rfl (hnv m)
    | storageError m => rfl
    | otherError m => rfl
  · intro e hnv
    unfold get_specs
    cases e with
    | valueError m => exact absurd rfl (hnv m)
    | storageError m => rfl
    | otherError m => rfl

/-- Witness for C7 (amended): a probe document with only an audio
stream fails with `NoVideoStream`. -/
theorem probe_error_modes_witness :
    get_specs (.ok audioOnlyProbe) = .error (.valueError NO_VIDEO_STREAM) :=
  probe_error_modes.1 audioOnlyProbe (by decide)

/-- Counterexample to C8 as stated: with the default 3 attempts all
timing out, `store_video` raises `StorageError` but never attempts the
partial-artifact delete. -/
theorem timeout_exhaustion_skips_delete :
    store_video {} (fun _ => .timeout)
      = (.error (.storageError "Upload timeout after retries"),
         { attempts_made := 3, sleeps := 2, delete_attempted := false }) := by
  decide

/-- Claim C8, amended: `store_video` makes at most `max_retry_attempts`
attempts (default 3) with one fixed backoff sleep between consecutive
attempts; when every attempt fails the caller observes a
`StorageError`, and the best-effort delete of the partial artifact is
attempted exactly when the final attempt fails with a non-timeout
exception (timeout exhaustion raises without attempting it). -/
theorem store_retry_contract :
    (∀ (settings : FirebaseSettings) (outcomes : Nat → AttemptOutcome),
       (store_video settings outcomes).2.attempts_made ≤ settings.max_retry_attempts)
    ∧ (∀ (settings : FirebaseSettings) (outcomes : Nat → AttemptOutcome),
       0 < settings.max_retry_attempts →
       (∀ j m, outcomes j ≠ .success m) →
       ∃ m, (store_video settings outcomes).1 = .error (.storageError m)
         ∧ ((store_video settings outcomes).2.delete_attempted = true
             ↔ ∃ msg, outcomes (settings.max_retry_attempts - 1) = .failure msg)
         ∧ (store_video settings outcomes).2.attempts_made
             = settings.max_retry_attempts
         ∧ (store_video settings outcomes).2.sleeps
             = settings.max_retry_attempts - 1) := by
  constructor
  · intro settings outcomes
    have h := store_go_attempts_le outcomes settings.max_retry_attempts
      settings.max_retry_attempts 0 {}
    simpa using h
  · intro settings outcomes hpos hfail
    obtain ⟨m, h1, h2, h3, h4⟩ := store_go_allfail outcomes
      settings.max_retry_attempts hfail settings.max_retry_attempts 0 {}
      (by omega) hpos rfl
    exact ⟨m, h1, h2, by simpa using h3, by simpa using h4⟩

/-- Witness for C8 (amended): three non-timeout failures exhaust the
attempts, raise `StorageError` and attempt the delete. -/
theorem store_retry_contract_witness :
    ∃ m, (store_video {} (fun _ => AttemptOutcome.failure "bucket unreachable")).1
        = .error (.storageError m)
      ∧ ((store_video {}
            (fun _ => AttemptOutcome.failure "bucket unreachable")).2.delete_attempted
            = true
          ↔ ∃ msg, (fun _ : Nat => AttemptOutcome.failure "bucket unreachable")
              (({} : FirebaseSettings).max_retry_attempts - 1) = .failure msg)
      ∧ (store_video {}
            (fun _ => AttemptOutcome.failure "bucket unreachable")).2.attempts_made
          = ({} : FirebaseSettings).max_retry_attempts
      ∧ (store_video {}
            (fun _ => AttemptOutcome.failure "bucket unreachable")).2.sleeps
          = ({} : FirebaseSettings).max_retry_attempts - 1 :=
  store_retry_contract.2 {} (fun _ => AttemptOutcome.failure "bucket unreachable")
    (by decide) (fun j m h => by simp at h)

/-- Counterexample to C9 as stated: the `InvalidMime` verdict carries a
single suggestion, not a 3-item list. -/
theorem invalid_mime_one_suggestion :
    (validate_video pngFile).valid = false
    ∧ (validate_video pngFile).suggestions = some ["Only video files are accepted"]
    ∧ ((validate_video pngFile).suggestions.getD []).length = 1 := by
  decide

/-- Claim C9, amended: every failing verdict produced after the MIME
check carries the fixed 3-item suggestion list of its kind, static and
independent of the input file — `InvalidResolution`, `InvalidFps`,
`VideoTooLong` and `InvalidColorSpace` verdicts each carry the constant
list of their `get_error` branch (with `InvalidResolution` carrying
exactly the three quoted strings), the `FileTooLarge` verdict carries
the size-check list, and a probe failure carries the exception-path
list; the `InvalidMime` verdict instead carries the single suggestion
`"Only video files are accepted"`. -/
theorem suggestion_list_policy :
    (∀ specs r, get_error specs = some r →
        (specs.width ≠ WIDTH ∨ specs.height ≠ HEIGHT) →
        r.suggestions = some resolutionSuggestions)
    ∧ (∀ specs r, get_error specs = some r →
        specs.width = WIDTH → specs.height = HEIGHT →
        (specs.fps < MIN_FPS ∨ specs.fps > MAX_FPS) →
        r.suggestions = some fpsSuggestions)
    ∧ (∀ specs r, get_error specs = some r →
        specs.width = WIDTH → specs.height = HEIGHT →
        MIN_FPS ≤ specs.fps → specs.fps ≤ MAX_FPS →
        specs.duration > MAX_DURATION →
        r.suggestions = some durationSuggestions)
    ∧ (∀ specs r, get_error specs = some r →
        specs.width = WIDTH → specs.height = HEIGHT →
        MIN_FPS ≤ specs.fps → specs.fps ≤ MAX_FPS →
        specs.duration ≤ MAX_DURATION →
        r.suggestions = some colorSpaceSuggestions)
    ∧ (∀ f : VFile, pyStartsWith f.mime "video/" = true → f.st_size > MAX_SIZE →
        (validate_video f).suggestions = some sizeSuggestions)
    ∧ (∀ (f : VFile) (e : PyErr), pyStartsWith f.mime "video/" = true →
        ¬ f.st_size > MAX_SIZE → get_specs f.probe = .error e →
        (validate_video f).suggestions = some exceptionSuggestions)
    ∧ (∀ f : VFile, pyStartsWith f.mime "video/" = false →
        (validate_video f).suggestions = some ["Only video files are accepted"])
    ∧ resolutionSuggestions = ["Video must be exactly 720x1280",
        "Use a video editor to resize the video",
        "Most phones can record in this resolution natively"]
    ∧ resolutionSuggestions.length = 3 ∧ fpsSuggestions.length = 3
    ∧ durationSuggestions.length = 3 ∧ colorSpaceSuggestions.length = 3
    ∧ sizeSuggestions.length = 3 ∧ exceptionSuggestions.length = 3 := by
  refine ⟨?_, ?_, ?_, ?_, ?_, ?_, ?_, rfl, rfl, rfl, rfl, rfl, rfl, rfl⟩
  · intro specs r h hwh
    unfold get_error at h
    rw [if_pos hwh] at h
    simp only [Option.some.injEq] at h
    subst h
    rfl
  · intro specs r h hw hh hfps
    unfold get_error at h
    rw [if_neg (by simp [hw, hh]), if_pos hfps] at h
    simp only [Option.some.injEq] at h
    subst h
    rfl
  · intro specs r h hw hh h1 h2 hdur
    unfold get_error at h
    rw [if_neg (by simp [hw, hh]), if_neg (by push_neg; exact ⟨h1, h2⟩),
      if_pos hdur] at h
    simp only [Option.some.injEq] at h
    subst h
    rfl
  · intro specs r h hw hh h1 h2 hdur
    unfold get_error at h
    rw [if_neg (by simp [hw, hh]), if_neg (by push_neg; exact ⟨h1, h2⟩),
      if_neg (not_lt.mpr hdur)] at h
    by_cases hcs : pyLower specs.colorSpace ≠ "bt709"
    · rw [if_pos hcs] at h
      simp only [Option.some.injEq] at h
      subst h
      rfl
    · rw [if_neg hcs] at h
      simp at h
  · intro f hmime hsize
    unfold validate_video
    rw [if_neg (by simp [hmime]), if_pos hsize]
  · intro f e hmime hsize hprobe
    unfold validate_video
    rw [if_neg (by simp [hmime]), if_neg hsize, hprobe]
  · intro f hmime
    unfold validate_video
    simp [hmime]

/-- Witness for C9 (amended): the 1920x1080 verdict carries exactly the
fixed `InvalidResolution` suggestion list. -/
theorem suggestion_list_policy_witness :
    ((get_error wrongResSpecs).getD ⟨false, none, none, none⟩).suggestions
      = some resolutionSuggestions :=
  suggestion_list_policy.1 wrongResSpecs
    ((get_error wrongResSpecs).getD ⟨false, none, none, none⟩) (by decide) (by decide)

/-- Claim C10: every `ValidationResult` returned by `validate_video`
satisfies `valid = true ↔ error = null` and `valid = true → specs ≠
null`; `validate_video` is total on every input, including inputs whose
probing raises an arbitrary exception (the top-level `except` clause of
the source is the final match arm of the embedding). -/
theorem validate_video_total_invariant (f : VFile) :
    ((validate_video f).valid = true ↔ (validate_video f).error = none)
    ∧ ((validate_video f).valid = true → (validate_video f).specs ≠ none) :=
  validate_video_shape f

/-- Witness for C10: the invariant at the happy-path file. -/
theorem validate_video_total_invariant_witness :
    ((validate_video happyFile).valid = true ↔ (validate_video happyFile).error = none)
    ∧ ((validate_video happyFile).valid = true
        → (validate_video happyFile).specs ≠ none) :=
  validate_video_total_invariant happyFile

end Tiktoken
